import Mathlib

/-!
Shallow embedding of the Photo-Sphere-Viewer core: the coordinate
converter and range solver (`PSVDataHelper`, src/unnamed/part_006), the
marker model (`PSVMarker`, src/unnamed/part_004), the marker visibility
and clipping pass (`PSVHUD`, src/unnamed/part_002), and the panorama
load guard (`PhotoSphereViewer.setPanorama`,
src/src/js/PhotoSphereViewer.js).  JavaScript numbers are modelled by
real numbers, pixel metadata by integers, thrown `PSVError`s by an
error type threaded through `Except` or an explicit error component.
-/

/-- The error type of the library.  The source throws `PSVError` objects
distinguished only by their message string; each constructor stands for one
of the messages relevant here. -/
inductive PSVError
  | missingId          -- "missing marker id"
  | missingSize        -- "missing marker width/height"
  | missingPosition    -- "missing marker position, latitude/longitude or x/y"
  | missingContent     -- "missing marker content, ..."
  | multipleContent    -- "multiple marker content, ..."
  | typeChange         -- "cannot change marker type"
  | cubemapTexture     -- "Unable to use texture coords with cubemap."
  | unknownAngle       -- "unknown angle" (utils.parseAngle on a missing value)
  | loadingInProgress  -- "Loading already in progress"
  deriving DecidableEq

/-- A 2D point, both for texture (pixel) coordinates and viewer coordinates. -/
structure Point where
  x : ℝ
  y : ℝ

/-- A spherical position, `{longitude, latitude}` in radians. -/
structure Position where
  longitude : ℝ
  latitude : ℝ

/-- A 3D vector (THREE.Vector3). -/
structure Vec3 where
  x : ℝ
  y : ℝ
  z : ℝ

instance : Inhabited Vec3 := ⟨⟨0, 0, 0⟩⟩

/-- Panorama crop metadata (`prop.panoData`): the full equirectangular size and
the crop offsets, all integer pixel counts. -/
structure PanoData where
  fullWidth : ℤ
  fullHeight : ℤ
  croppedX : ℤ
  croppedY : ℤ

/-- The viewer state consumed by the data helper: panorama kind and crop data. -/
structure PanoState where
  isCubemap : Bool
  panoData : PanoData

/-- `config.minFov` / `config.maxFov` (degrees). -/
structure FovConfig where
  minFov : ℝ
  maxFov : ℝ

/-- Modelled from the spec: the numeric value of the `SPHERE_RADIUS` constant
(imported from `data/constants`, which is not under src/).  The spec fixes
only the shape of the conversion formulas (a generic radius R, section 4.1)
and requires in section 8 that the unit-vector round trip
`sphericalToVector3 (vector3ToSpherical v)` return v itself within 1e-6,
which forces radius 1. -/
noncomputable def SPHERE_RADIUS : ℝ := 1

namespace PSVDataHelper

/-- `fovToZoomLevel` (part_006 lines 26-29):
`temp = Math.round((fov - minFov) / (maxFov - minFov) * 100)`, returns
`temp - 2 * (temp - 50)`.  `Math.round` is `round : ℝ → ℤ` (half away from
minus infinity in both). -/
noncomputable def fovToZoomLevel (cfg : FovConfig) (fov : ℝ) : ℤ :=
  let temp := round ((fov - cfg.minFov) / (cfg.maxFov - cfg.minFov) * 100)
  temp - 2 * (temp - 50)

/-- `zoomLevelToFov` (part_006 lines 36-38):
`maxFov + (level / 100) * (minFov - maxFov)`. -/
noncomputable def zoomLevelToFov (cfg : FovConfig) (level : ℝ) : ℝ :=
  cfg.maxFov + (level / 100) * (cfg.minFov - cfg.maxFov)

/-- `textureCoordsToSphericalCoords` (part_006 lines 74-87): throws for a
cubemap; otherwise
`relativeX = (x + croppedX) / fullWidth * π * 2`,
`relativeY = (y + croppedY) / fullHeight * π`,
`longitude = relativeX ≥ π ? relativeX - π : relativeX + π`,
`latitude = π / 2 - relativeY`. -/
noncomputable def textureCoordsToSphericalCoords (st : PanoState) (p : Point) :
    Except PSVError Position :=
  if st.isCubemap then .error .cubemapTexture
  else
    let pd := st.panoData
    let relativeX := (p.x + (pd.croppedX : ℝ)) / (pd.fullWidth : ℝ) * Real.pi * 2
    let relativeY := (p.y + (pd.croppedY : ℝ)) / (pd.fullHeight : ℝ) * Real.pi
    .ok { longitude := if relativeX ≥ Real.pi then relativeX - Real.pi else relativeX + Real.pi
          latitude := Real.pi / 2 - relativeY }

/-- `sphericalCoordsToTextureCoords` (part_006 lines 94-107): throws for a
cubemap; otherwise
`relativeLong = longitude / π / 2 * fullWidth`,
`relativeLat = latitude / π * fullHeight`,
`x = Math.round(longitude < π ? relativeLong + fullWidth / 2 : relativeLong - fullWidth / 2) - croppedX`,
`y = Math.round(fullHeight / 2 - relativeLat) - croppedY`. -/
noncomputable def sphericalCoordsToTextureCoords (st : PanoState) (pos : Position) :
    Except PSVError Point :=
  if st.isCubemap then .error .cubemapTexture
  else
    let pd := st.panoData
    let relativeLong := pos.longitude / Real.pi / 2 * (pd.fullWidth : ℝ)
    let relativeLat := pos.latitude / Real.pi * (pd.fullHeight : ℝ)
    .ok { x := ((round (if pos.longitude < Real.pi then relativeLong + (pd.fullWidth : ℝ) / 2
                        else relativeLong - (pd.fullWidth : ℝ) / 2) : ℤ) : ℝ) - (pd.croppedX : ℝ)
          y := ((round ((pd.fullHeight : ℝ) / 2 - relativeLat) : ℤ) : ℝ) - (pd.croppedY : ℝ) }

/-- `Math.atan2(y, x)`: the angle of the point (x, y) in (-π, π], with
`atan2 0 0 = 0`, exactly the argument of the complex number x + y i. -/
noncomputable def atan2 (y x : ℝ) : ℝ := Complex.arg ⟨x, y⟩

/-- `sphericalCoordsToVector3` (part_006 lines 114-120):
`(R * -cos(lat) * sin(long), R * sin(lat), R * cos(lat) * cos(long))`. -/
noncomputable def sphericalCoordsToVector3 (pos : Position) : Vec3 :=
  ⟨SPHERE_RADIUS * -Real.cos pos.latitude * Real.sin pos.longitude,
   SPHERE_RADIUS * Real.sin pos.latitude,
   SPHERE_RADIUS * Real.cos pos.latitude * Real.cos pos.longitude⟩

/-- `vector3ToSphericalCoords` (part_006 lines 127-135):
`phi = acos(y / |v|)`, `theta = atan2(x, z)`,
`longitude = theta < 0 ? -theta : 2π - theta`, `latitude = π/2 - phi`. -/
noncomputable def vector3ToSphericalCoords (v : Vec3) : Position :=
  let phi := Real.arccos (v.y / Real.sqrt (v.x * v.x + v.y * v.y + v.z * v.z))
  let theta := atan2 v.x v.z
  { longitude := if theta < 0 then -theta else Real.pi * 2 - theta
    latitude := Real.pi / 2 - phi }

end PSVDataHelper

/-- A side of the configured ranges reported in `sidesReached`. -/
inductive Side
  | left
  | right
  | top
  | bottom
  deriving DecidableEq

/-- `config.longitudeRange` / `config.latitudeRange`, both optional
`[lo, hi]` pairs in radians. -/
structure RangesConfig where
  longitudeRange : Option (ℝ × ℝ)
  latitudeRange : Option (ℝ × ℝ)

namespace PSVDataHelper

/-- `THREE.Math.degToRad`. -/
noncomputable def degToRad (deg : ℝ) : ℝ := deg * (Real.pi / 180)

/-- Modelled from the spec: `parseAngle` lives in `utils`, which is not under
src/.  Per the data model (spec section 3) and `cleanPosition` (section 4.1),
a longitude wraps into its canonical range [0, 2π) and a latitude clamps to
[-π/2, π/2]; the boolean mirrors the source flag selecting the latitude
treatment. -/
noncomputable def parseAngle (a : ℝ) (lat : Bool) : ℝ :=
  if lat then max (-(Real.pi / 2)) (min (Real.pi / 2) a)
  else a - 2 * Real.pi * ⌊a / (2 * Real.pi)⌋

/-- The latitude bounds computed by `applyRanges` (part_006 lines 240-241):
`range[0] = parseAngle(min(range[0] + offset, range[1]), true)` and then,
reading the already updated `range[0]`,
`range[1] = parseAngle(max(range[1] - offset, range[0]), true)` with
`offset = degToRad(vFov) / 2`. -/
noncomputable def latitudeShrunkRange (r : ℝ × ℝ) (vFovDeg : ℝ) : ℝ × ℝ :=
  let offset := degToRad vFovDeg / 2
  let r0 := parseAngle (min (r.1 + offset) r.2) true
  let r1 := parseAngle (max (r.2 - offset) r0) true
  (r0, r1)

/-- `applyRanges` (part_006 lines 197-254).  `hFovDeg` and `vFovDeg` model
`prop.hFov` / `prop.vFov`, which the source keeps in degrees and converts
with `THREE.Math.degToRad` at the point of use.  Longitude: shrink the range
by half the horizontal FOV, wrap both bounds; when the shrunk range crosses
longitude 0 (`range[0] > range[1]`), a position strictly between `range[1]`
and `range[0]` clamps to whichever bound is closer, otherwise clamp below
`range[0]` to the left and above `range[1]` to the right.  Latitude: clamp
to `latitudeShrunkRange`.  Sides are pushed in source order, longitude
first. -/
noncomputable def applyRanges (cfg : RangesConfig) (hFovDeg vFovDeg : ℝ)
    (position : Position) : Position × List Side :=
  let longPart : ℝ × List Side :=
    match cfg.longitudeRange with
    | none => (position.longitude, [])
    | some r =>
      let offset := degToRad hFovDeg / 2
      let r0 := parseAngle (r.1 + offset) false
      let r1 := parseAngle (r.2 - offset) false
      if r0 > r1 then
        if position.longitude > r1 ∧ position.longitude < r0 then
          if position.longitude > (r0 / 2 + r1 / 2) then (r0, [Side.left])
          else (r1, [Side.right])
        else (position.longitude, [])
      else if position.longitude < r0 then (r0, [Side.left])
      else if position.longitude > r1 then (r1, [Side.right])
      else (position.longitude, [])
  let latPart : ℝ × List Side :=
    match cfg.latitudeRange with
    | none => (position.latitude, [])
    | some r =>
      let r01 := latitudeShrunkRange r vFovDeg
      if position.latitude < r01.1 then (r01.1, [Side.bottom])
      else if position.latitude > r01.2 then (r01.2, [Side.top])
      else (position.latitude, [])
  (⟨longPart.1, latPart.1⟩, longPart.2 ++ latPart.2)

end PSVDataHelper

/-- The content kinds of `MARKER_TYPES` (imported from `data/constants`),
keyed by the configuration field of the same name. -/
inductive MarkerType
  | image
  | html
  | square
  | rect
  | circle
  | ellipse
  | path
  | polygonPx
  | polygonRad
  | polylinePx
  | polylineRad
  deriving DecidableEq

/-- A marker configuration object (spec section 6); an absent field is
`none`.  Polygon and polyline contents are modelled in their
pair-of-coordinates form (the source folds a flat numeric sequence into
pairs in place before use, and the object and array forms of `rect` and
`ellipse` carry the same two numbers). -/
structure MarkerConfig where
  id : Option String := none
  image : Option String := none
  html : Option String := none
  square : Option ℝ := none
  rect : Option (ℝ × ℝ) := none
  circle : Option ℝ := none
  ellipse : Option (ℝ × ℝ) := none
  path : Option String := none
  polygonPx : Option (List (ℝ × ℝ)) := none
  polygonRad : Option (List (ℝ × ℝ)) := none
  polylinePx : Option (List (ℝ × ℝ)) := none
  polylineRad : Option (List (ℝ × ℝ)) := none
  x : Option ℝ := none
  y : Option ℝ := none
  longitude : Option ℝ := none
  latitude : Option ℝ := none
  width : Option ℝ := none
  height : Option ℝ := none
  anchor : Option (ℝ × ℝ) := none
  visible : Option Bool := none

/-- JavaScript truthiness of an optional string: `undefined` and the empty
string are falsy. -/
def truthyStr (o : Option String) : Bool :=
  match o with
  | none => false
  | some s => !s.isEmpty

/-- One field of `deepmerge(target, src)` (utils): the src value overwrites
the target value, an absent src value keeps the target value. -/
def ovr {α : Type} (src tgt : Option α) : Option α :=
  match src with
  | some v => some v
  | none => tgt

/-- `deepmerge(target, src)` (utils) on marker configurations, field-wise. -/
def deepmerge (tgt src : MarkerConfig) : MarkerConfig :=
  { id := ovr src.id tgt.id
    image := ovr src.image tgt.image
    html := ovr src.html tgt.html
    square := ovr src.square tgt.square
    rect := ovr src.rect tgt.rect
    circle := ovr src.circle tgt.circle
    ellipse := ovr src.ellipse tgt.ellipse
    path := ovr src.path tgt.path
    polygonPx := ovr src.polygonPx tgt.polygonPx
    polygonRad := ovr src.polygonRad tgt.polygonRad
    polylinePx := ovr src.polylinePx tgt.polylinePx
    polylineRad := ovr src.polylineRad tgt.polylineRad
    x := ovr src.x tgt.x
    y := ovr src.y tgt.y
    longitude := ovr src.longitude tgt.longitude
    latitude := ovr src.latitude tgt.latitude
    width := ovr src.width tgt.width
    height := ovr src.height tgt.height
    anchor := ovr src.anchor tgt.anchor
    visible := ovr src.visible tgt.visible }

/-- The content-kind fields present in a configuration, in `MARKER_TYPES`
iteration order: the `found` list of `PSVMarker.getType`. -/
def contentFields (c : MarkerConfig) : List MarkerType :=
  (if c.image.isSome then [MarkerType.image] else []) ++
  (if c.html.isSome then [MarkerType.html] else []) ++
  (if c.square.isSome then [MarkerType.square] else []) ++
  (if c.rect.isSome then [MarkerType.rect] else []) ++
  (if c.circle.isSome then [MarkerType.circle] else []) ++
  (if c.ellipse.isSome then [MarkerType.ellipse] else []) ++
  (if c.path.isSome then [MarkerType.path] else []) ++
  (if c.polygonPx.isSome then [MarkerType.polygonPx] else []) ++
  (if c.polygonRad.isSome then [MarkerType.polygonRad] else []) ++
  (if c.polylinePx.isSome then [MarkerType.polylinePx] else []) ++
  (if c.polylineRad.isSome then [MarkerType.polylineRad] else [])

/-- `PSVMarker.isNormal` (part_004 lines 133-136). -/
def isNormalType (t : MarkerType) : Bool :=
  t == .image || t == .html

/-- `PSVMarker.isPoly` (part_004 lines 142-145). -/
def isPolyType (t : MarkerType) : Bool :=
  t == .polygonPx || t == .polygonRad || t == .polylinePx || t == .polylineRad

/-- `PSVMarker.isPolyPx` (part_004 lines 151-154). -/
def isPolyPxType (t : MarkerType) : Bool :=
  t == .polygonPx || t == .polylinePx

/-- `PSVMarker.isPolygon` (part_004 lines 169-172). -/
def isPolygonType (t : MarkerType) : Bool :=
  t == .polygonPx || t == .polygonRad

/-- `props.def`: the concrete content definition derived from the
configuration. -/
inductive MarkerDef
  | noDef
  | content (s : String)
  | shapeRect (x y w h : ℝ)
  | shapeCircle (cx cy r : ℝ)
  | shapeEllipse (cx cy rx ry : ℝ)
  | shapePath (d : String)
  | polyCoords (pts : List (ℝ × ℝ))

/-- The computed marker properties (`this.props`, part_004 lines 87-96). -/
structure MarkerProps where
  dynamicSize : Bool
  anchor : Option (ℝ × ℝ)
  position : Option Position
  position2D : Option Point
  positions3D : List Vec3
  width : Option ℝ
  height : Option ℝ
  defn : MarkerDef

/-- The initial `this.props` set by the constructor before `update`. -/
def initialProps : MarkerProps :=
  ⟨false, none, none, none, [], none, none, .noDef⟩

/-- A marker: identity, immutable type, user-controlled visibility flag,
stored configuration and derived properties. -/
structure Marker where
  id : Option String
  type : MarkerType
  visible : Bool
  config : MarkerConfig
  props : MarkerProps

/-- Modelled from the spec: `parsePosition` (utils, not under src/) resolves
the configured anchor to a fraction pair, center by default (spec section
4.4: "anchor fraction (default center)"). -/
def parsePosition (o : Option (ℝ × ℝ)) : ℝ × ℝ :=
  o.getD (0.5, 0.5)

namespace PSVDataHelper

/-- Modelled from the spec: `parseAngle` (utils, not under src/) applied to a
possibly missing configuration value.  The utils parser rejects a value it
cannot parse as an angle, and the spec (section 4.4) makes a point or shape
marker without any position a configuration error, so a missing angle is an
error; a present angle is normalized as in `parseAngle`. -/
noncomputable def parseAngleOpt (a : Option ℝ) (lat : Bool) : Except PSVError ℝ :=
  match a with
  | none => .error .unknownAngle
  | some v => .ok (parseAngle v lat)

/-- `cleanPosition` (part_006 lines 180-190): when both pixel coordinates are
present convert them through `textureCoordsToSphericalCoords`; otherwise
parse and normalize the raw angles. -/
noncomputable def cleanPosition (st : PanoState) (c : MarkerConfig) :
    Except PSVError Position :=
  match c.x, c.y with
  | some px, some py => textureCoordsToSphericalCoords st ⟨px, py⟩
  | _, _ => do
    let long ← parseAngleOpt c.longitude false
    let lat ← parseAngleOpt c.latitude true
    pure ⟨long, lat⟩

end PSVDataHelper

namespace PSVMarker

/-- `PSVMarker.getType` (part_004 lines 466-483): collect the present
content-kind fields; throw when none is present (unless `allowNone`) or when
several are; return `found[0]`. -/
def getType (c : MarkerConfig) (allowNone : Bool) :
    Except PSVError (Option MarkerType) :=
  match contentFields c, allowNone with
  | [], false => .error .missingContent
  | [], true => .ok none
  | [t], _ => .ok (some t)
  | _ :: _ :: _, _ => .error .multipleContent

/-- `__updateNormal` (part_004 lines 275-304), minus the DOM styling owned by
the external compositor: size bookkeeping, content definition, then position
and 3D vector through `cleanPosition`.  The source tests
`config.width && config.height` for truthiness; presence stands for that
test here (a zero size is not a meaningful marker size).  The second
component is the thrown error, the first the marker state at that point. -/
noncomputable def updateNormal (st : PanoState) (m : Marker) :
    Marker × Option PSVError :=
  let m1 :=
    if m.config.width.isSome && m.config.height.isSome then
      { m with props := { m.props with
          dynamicSize := false
          width := m.config.width
          height := m.config.height } }
    else
      { m with props := { m.props with dynamicSize := true } }
  let m2 :=
    if truthyStr m1.config.image then
      { m1 with props := { m1.props with defn := .content (m1.config.image.getD ("")) } }
    else if truthyStr m1.config.html then
      { m1 with props := { m1.props with defn := .content (m1.config.html.getD ("")) } }
    else m1
  match PSVDataHelper.cleanPosition st m2.config with
  | .error e => (m2, some e)
  | .ok pos =>
    ({ m2 with props := { m2.props with
        position := some pos
        positions3D := [PSVDataHelper.sphericalCoordsToVector3 pos] } }, none)

/-- `__updateSvg` (part_004 lines 310-398), minus the SVG attribute writes
owned by the external compositor: dynamic size, the shape definition by
type, then position and 3D vector through `cleanPosition`. -/
noncomputable def updateSvg (st : PanoState) (m : Marker) :
    Marker × Option PSVError :=
  let defn :=
    match m.type with
    | .square => MarkerDef.shapeRect 0 0 (m.config.square.getD 0) (m.config.square.getD 0)
    | .rect => MarkerDef.shapeRect 0 0 (m.config.rect.getD (0, 0)).1 (m.config.rect.getD (0, 0)).2
    | .circle => MarkerDef.shapeCircle (m.config.circle.getD 0) (m.config.circle.getD 0)
        (m.config.circle.getD 0)
    | .ellipse => MarkerDef.shapeEllipse (m.config.ellipse.getD (0, 0)).1
        (m.config.ellipse.getD (0, 0)).2 (m.config.ellipse.getD (0, 0)).1
        (m.config.ellipse.getD (0, 0)).2
    | .path => MarkerDef.shapePath (m.config.path.getD (""))
    | _ => MarkerDef.noDef
  let m1 := { m with props := { m.props with
      dynamicSize := true
      defn := defn } }
  match PSVDataHelper.cleanPosition st m1.config with
  | .error e => (m1, some e)
  | .ok pos =>
    ({ m1 with props := { m1.props with
        position := some pos
        positions3D := [PSVDataHelper.sphericalCoordsToVector3 pos] } }, none)

/-- `__updatePoly` (part_004 lines 404-457), minus the SVG styling owned by
the external compositor: the first present polygon/polyline content, pixel
pairs converted through `textureCoordsToSphericalCoords` or radian pairs
normalized through `parseAngle`, the position taken from the first vertex
(the documented first-vertex semantics), and the 3D vectors. -/
noncomputable def updatePoly (st : PanoState) (m : Marker) :
    Marker × Option PSVError :=
  let actualPoly := (ovr m.config.polygonPx (ovr m.config.polygonRad
      (ovr m.config.polylinePx m.config.polylineRad))).getD []
  let defnRes : Except PSVError (List (ℝ × ℝ)) :=
    if isPolyPxType m.type then
      actualPoly.mapM (fun coord => do
        let pos ← PSVDataHelper.textureCoordsToSphericalCoords st ⟨coord.1, coord.2⟩
        pure (pos.longitude, pos.latitude))
    else
      .ok (actualPoly.map (fun coord =>
        (PSVDataHelper.parseAngle coord.1 false, PSVDataHelper.parseAngle coord.2 true)))
  let m1 := { m with props := { m.props with dynamicSize := true } }
  match defnRes with
  | .error e => (m1, some e)
  | .ok pts =>
    ({ m1 with props := { m1.props with
        defn := .polyCoords pts
        position := some ⟨(pts.headD (0, 0)).1, (pts.headD (0, 0)).2⟩
        positions3D := pts.map (fun coord =>
          PSVDataHelper.sphericalCoordsToVector3 ⟨coord.1, coord.2⟩) } }, none)

/-- `PSVMarker.update` (part_004 lines 220-269) as a state transformer: the
first component is the marker state after the call, the second the thrown
`PSVError`, if any.  The type check precedes the merge, so a type-change
error returns the marker untouched.  The call sites always pass a properties
object distinct from the stored configuration, so the source guard
`properties && properties !== this.config` is taken.  CSS class and style
handling belongs to the external compositor. -/
noncomputable def update (st : PanoState) (m : Marker) (p : MarkerConfig) :
    Marker × Option PSVError :=
  match getType p true with
  | .error e => (m, some e)
  | .ok newType =>
    if newType.isSome && newType != some m.type then (m, some .typeChange)
    else
      let m1 := { m with
        config := deepmerge m.config p
        visible := p.visible != some false }
      let m2 := { m1 with props := { m1.props with
                    anchor := some (parsePosition m1.config.anchor) } }
      if isNormalType m.type then updateNormal st m2
      else if isPolyType m.type then updatePoly st m2
      else updateSvg st m2

/-- The `PSVMarker` constructor (part_004 lines 20-116): the validation
checks in source order, type determination via `getType` with
`allowNone = false`, a fresh empty configuration, then `update(properties)`.
Element creation is external DOM work.  JS truthiness: for `id`, `image` and
`html` the empty string is falsy; for `width`/`height` presence stands for
truthiness.  `getType` with `allowNone = false` never returns `none`; that
match arm only makes the function total. -/
noncomputable def create (st : PanoState) (c : MarkerConfig) :
    Except PSVError Marker :=
  if !truthyStr c.id then .error .missingId
  else if truthyStr c.image && (!c.width.isSome || !c.height.isSome) then
    .error .missingSize
  else if (truthyStr c.image || truthyStr c.html)
      && ((!c.x.isSome || !c.y.isSome) && (!c.latitude.isSome || !c.longitude.isSome)) then
    .error .missingPosition
  else
    match getType c false with
    | .error e => .error e
    | .ok none => .error .missingContent
    | .ok (some t) =>
      match update st { id := c.id, type := t, visible := true
                        config := {}, props := initialProps } c with
      | (_, some e) => .error e
      | (m, none) => .ok m

end PSVMarker

namespace Vec3

/-- `THREE.Vector3.dot`. -/
noncomputable def dot (a b : Vec3) : ℝ :=
  a.x * b.x + a.y * b.y + a.z * b.z

/-- `THREE.Vector3.crossVectors`. -/
noncomputable def cross (a b : Vec3) : Vec3 :=
  ⟨a.y * b.z - a.z * b.y, a.z * b.x - a.x * b.z, a.x * b.y - a.y * b.x⟩

/-- Scalar multiple (`THREE.Vector3.multiplyScalar`). -/
noncomputable def smul (k : ℝ) (v : Vec3) : Vec3 :=
  ⟨k * v.x, k * v.y, k * v.z⟩

/-- `THREE.Vector3.addVectors`. -/
noncomputable def addV (a b : Vec3) : Vec3 :=
  ⟨a.x + b.x, a.y + b.y, a.z + b.z⟩

/-- `THREE.Vector3.normalize`: divide by the length (division by a zero
length yields the zero vector in this real-number model). -/
noncomputable def normalizeV (v : Vec3) : Vec3 :=
  ⟨v.x / Real.sqrt (dot v v), v.y / Real.sqrt (dot v v), v.z / Real.sqrt (dot v v)⟩

/-- `THREE.Vector3.applyAxisAngle` for a unit axis, the Rodrigues rotation
`v cos θ + (axis × v) sin θ + axis (axis · v)(1 - cos θ)`.  The source feeds
the axis `H × C` without normalizing it; no claim settled here inspects the
rotated point. -/
noncomputable def applyAxisAngle (v axis : Vec3) (θ : ℝ) : Vec3 :=
  addV (addV (smul (Real.cos θ) v) (smul (Real.sin θ) (cross axis v)))
    (smul (dot axis v * (1 - Real.cos θ)) axis)

end Vec3

namespace PSVHUD

/-- One entry of the `toBeComputed` worklist of `__getPolyPositions`: a
visible neighbour, the invisible vertex, and its index. -/
structure PolyPair where
  visible : Vec3 × Bool
  invisible : Vec3 × Bool
  index : ℕ

/-- The visibility marking at the top of `__getPolyPositions` (part_002
lines 398-404): each 3D vertex paired with `vector.dot(direction) > 0`. -/
noncomputable def markVisible (direction : Vec3) (vs : List Vec3) :
    List (Vec3 × Bool) :=
  vs.map (fun v => (v, decide (Vec3.dot v direction > 0)))

/-- The two cyclic neighbours of index i (part_002 lines 410-413). -/
noncomputable def neighbours (ps : List (Vec3 × Bool)) (i : ℕ) :
    List (Vec3 × Bool) :=
  [if i = 0 then ps.getD (ps.length - 1) (⟨0, 0, 0⟩, false)
   else ps.getD (i - 1) (⟨0, 0, 0⟩, false),
   if i = ps.length - 1 then ps.getD 0 (⟨0, 0, 0⟩, false)
   else ps.getD (i + 1) (⟨0, 0, 0⟩, false)]

/-- The `toBeComputed` worklist (part_002 lines 407-425): for every invisible
vertex, one entry per visible cyclic neighbour, in index order. -/
noncomputable def toBeComputed (ps : List (Vec3 × Bool)) : List PolyPair :=
  (List.range ps.length).foldl
    (fun acc i =>
      let pos := ps.getD i (⟨0, 0, 0⟩, false)
      if pos.2 then acc
      else acc ++ ((neighbours ps i).filter (fun nb => nb.2)).map
        (fun nb => ⟨nb, pos, i⟩))
    []

/-- `__getPolyIntermediaryPoint` (part_002 lines 452-459): the point of the
great circle delimiting the visible half sphere, in the plane of P1 and P2,
nudged by 0.01 rad towards the visible side and scaled to the sphere
radius. -/
noncomputable def intermediaryPoint (direction P1 P2 : Vec3) : Vec3 :=
  let C := Vec3.normalizeV direction
  let N := Vec3.normalizeV (Vec3.cross P1 P2)
  let V := Vec3.normalizeV (Vec3.cross N P1)
  let H := Vec3.normalizeV (Vec3.addV (Vec3.smul (-(Vec3.dot C V)) P1)
    (Vec3.smul (Vec3.dot C P1) V))
  let a := Vec3.cross H C
  Vec3.smul SPHERE_RADIUS (Vec3.applyAxisAngle H a 0.01)

/-- `__getPolyPositions` (part_002 lines 395-439): mark visibility, build the
worklist, splice one intermediary point per entry (the worklist is reversed
so each splice lands at its index), then project the visible vertices
through the external camera projection (`vector3ToViewerCoords`), received
here as `proj`. -/
noncomputable def getPolyPositions (proj : Vec3 → Point) (direction : Vec3)
    (vs : List Vec3) : List Point :=
  let positions3D := markVisible direction vs
  let spliced := (toBeComputed positions3D).reverse.foldl
    (fun l pair =>
      l.insertIdx pair.index (intermediaryPoint direction pair.visible.1 pair.invisible.1, true))
    positions3D
  (spliced.filter (fun pos => pos.2)).map (fun pos => proj pos.1)

/-- The polygon/polyline branch of `renderMarkers` (part_002 lines 289-303):
frame visibility is the user flag conjoined with the computed positions
count exceeding 2 for a polygon (1 for a polyline). -/
noncomputable def renderPolyVisible (proj : Vec3 → Point) (direction : Vec3)
    (m : Marker) : Bool :=
  m.visible && decide ((getPolyPositions proj direction m.props.positions3D).length
    > (if isPolygonType m.type then 2 else 1))

end PSVHUD

/-- `prop.loadingPromise` and `config.panorama` of the viewer: the part of
`PhotoSphereViewer` state that `setPanorama` consults and mutates.
`loadingPromise` holds the path of the in-flight load, `none` when settled
(the `done` continuation resets it to `null`). -/
structure ViewerState where
  loadingPromise : Option String
  panorama : String

namespace PhotoSphereViewer

/-- `setPanorama` (PhotoSphereViewer.js lines 411-470): throws
`PSVError('Loading already in progress')` when `prop.loadingPromise !== null`,
otherwise records the new panorama and starts a load (the texture fetch
itself is an external collaborator; the new state carries the in-flight
promise).  Returning `.error` leaves the caller's state untouched. -/
def setPanorama (s : ViewerState) (path : String) : Except PSVError ViewerState :=
  if s.loadingPromise.isSome then
    .error .loadingInProgress
  else
    .ok { loadingPromise := some path, panorama := path }

/-- The `done` continuation of `setPanorama`: both on success and on failure
of the texture load it resets `prop.loadingPromise` to `null`. -/
def loadDone (s : ViewerState) : ViewerState :=
  { s with loadingPromise := none }

end PhotoSphereViewer

/-- Claim C1: for every integer pixel point inside the panorama crop
rectangle (relative x in [0, fullWidth), relative y in [0, fullHeight],
positive full dimensions, equirectangular panorama),
`sphericalCoordsToTextureCoords` applied to
`textureCoordsToSphericalCoords` returns exactly the original point: the
rounding in the inverse reproduces the integer pixel coordinates. -/
theorem claim_C1_texture_roundtrip (st : PanoState) (px py : ℤ)
    (hc : st.isCubemap = false)
    (hW : 0 < st.panoData.fullWidth) (hH : 0 < st.panoData.fullHeight)
    (hx0 : 0 ≤ px + st.panoData.croppedX)
    (hx1 : px + st.panoData.croppedX < st.panoData.fullWidth)
    (hy0 : 0 ≤ py + st.panoData.croppedY)
    (hy1 : py + st.panoData.croppedY ≤ st.panoData.fullHeight) :
    (PSVDataHelper.textureCoordsToSphericalCoords st ⟨(px : ℝ), (py : ℝ)⟩).bind
      (PSVDataHelper.sphericalCoordsToTextureCoords st) = .ok ⟨(px : ℝ), (py : ℝ)⟩ := by
  obtain ⟨cm, W, H, cX, cY⟩ := st
  simp only at hc hW hH hx0 hx1 hy0 hy1
  subst hc
  simp only [PSVDataHelper.textureCoordsToSphericalCoords,
    PSVDataHelper.sphericalCoordsToTextureCoords]
  have hπ := Real.pi_pos
  have hπ0 : Real.pi ≠ 0 := ne_of_gt hπ
  have hWr : (0:ℝ) < (W:ℝ) := by exact_mod_cast hW
  have hHr : (0:ℝ) < (H:ℝ) := by exact_mod_cast hH
  have hW0 : (W:ℝ) ≠ 0 := ne_of_gt hWr
  have hH0 : (H:ℝ) ≠ 0 := ne_of_gt hHr
  have hA0 : (0:ℝ) ≤ (px:ℝ) + (cX:ℝ) := by exact_mod_cast hx0
  have hA1 : (px:ℝ) + (cX:ℝ) < (W:ℝ) := by exact_mod_cast hx1
  rw [if_neg (by simp : ¬(false = true))]
  have hkeyy : ((H:ℝ)) / 2 - (Real.pi / 2 - ((py:ℝ) + (cY:ℝ)) / (H:ℝ) * Real.pi) / Real.pi * (H:ℝ)
      = ((py + cY : ℤ) : ℝ) := by
    push_cast
    field_simp
    ring
  by_cases hge : ((px:ℝ) + (cX:ℝ)) / (W:ℝ) * Real.pi * 2 ≥ Real.pi
  · rw [if_pos hge]
    rw [show (Except.ok (⟨((px:ℝ) + (cX:ℝ)) / (W:ℝ) * Real.pi * 2 - Real.pi,
        Real.pi / 2 - ((py:ℝ) + (cY:ℝ)) / (H:ℝ) * Real.pi⟩ : Position) :
        Except PSVError Position).bind
        (PSVDataHelper.sphericalCoordsToTextureCoords
          ⟨false, ⟨W, H, cX, cY⟩⟩) =
        PSVDataHelper.sphericalCoordsToTextureCoords ⟨false, ⟨W, H, cX, cY⟩⟩
          ⟨((px:ℝ) + (cX:ℝ)) / (W:ℝ) * Real.pi * 2 - Real.pi,
           Real.pi / 2 - ((py:ℝ) + (cY:ℝ)) / (H:ℝ) * Real.pi⟩ from rfl]
    simp only [PSVDataHelper.sphericalCoordsToTextureCoords]
    rw [if_neg (by simp : ¬(false = true))]
    have hlt : ((px:ℝ) + (cX:ℝ)) / (W:ℝ) * Real.pi * 2 - Real.pi < Real.pi := by
      have h1 : ((px:ℝ) + (cX:ℝ)) / (W:ℝ) < 1 := (div_lt_one hWr).mpr hA1
      nlinarith [mul_pos (sub_pos.mpr h1) hπ]
    rw [if_pos hlt]
    simp only [Except.ok.injEq, Point.mk.injEq]
    constructor
    · have key : (((px:ℝ) + (cX:ℝ)) / (W:ℝ) * Real.pi * 2 - Real.pi) / Real.pi / 2 * (W:ℝ)
          + (W:ℝ) / 2 = ((px + cX : ℤ) : ℝ) := by
        push_cast
        field_simp
        ring
      rw [key, round_intCast]
      push_cast
      ring
    · rw [hkeyy, round_intCast]
      push_cast
      ring
  · rw [if_neg hge]
    rw [show (Except.ok (⟨((px:ℝ) + (cX:ℝ)) / (W:ℝ) * Real.pi * 2 + Real.pi,
        Real.pi / 2 - ((py:ℝ) + (cY:ℝ)) / (H:ℝ) * Real.pi⟩ : Position) :
        Except PSVError Position).bind
        (PSVDataHelper.sphericalCoordsToTextureCoords
          ⟨false, ⟨W, H, cX, cY⟩⟩) =
        PSVDataHelper.sphericalCoordsToTextureCoords ⟨false, ⟨W, H, cX, cY⟩⟩
          ⟨((px:ℝ) + (cX:ℝ)) / (W:ℝ) * Real.pi * 2 + Real.pi,
           Real.pi / 2 - ((py:ℝ) + (cY:ℝ)) / (H:ℝ) * Real.pi⟩ from rfl]
    simp only [PSVDataHelper.sphericalCoordsToTextureCoords]
    rw [if_neg (by simp : ¬(false = true))]
    have hnlt : ¬(((px:ℝ) + (cX:ℝ)) / (W:ℝ) * Real.pi * 2 + Real.pi < Real.pi) := by
      have h1 : (0:ℝ) ≤ ((px:ℝ) + (cX:ℝ)) / (W:ℝ) := div_nonneg hA0 (le_of_lt hWr)
      nlinarith [mul_nonneg (mul_nonneg h1 (le_of_lt hπ)) (by norm_num : (0:ℝ) ≤ 2)]
    rw [if_neg hnlt]
    simp only [Except.ok.injEq, Point.mk.injEq]
    constructor
    · have key : (((px:ℝ) + (cX:ℝ)) / (W:ℝ) * Real.pi * 2 + Real.pi) / Real.pi / 2 * (W:ℝ)
          - (W:ℝ) / 2 = ((px + cX : ℤ) : ℝ) := by
        push_cast
        field_simp
        ring
      rw [key, round_intCast]
      push_cast
      ring
    · rw [hkeyy, round_intCast]
      push_cast
      ring

/-- Witness for C1: an 8 by 4 panorama cropped at (1, 1), pixel (3, 2). -/
theorem claim_C1_texture_roundtrip_witness :
    (PSVDataHelper.textureCoordsToSphericalCoords ⟨false, ⟨8, 4, 1, 1⟩⟩
        ⟨((3 : ℤ) : ℝ), ((2 : ℤ) : ℝ)⟩).bind
      (PSVDataHelper.sphericalCoordsToTextureCoords ⟨false, ⟨8, 4, 1, 1⟩⟩) =
      .ok ⟨((3 : ℤ) : ℝ), ((2 : ℤ) : ℝ)⟩ :=
  claim_C1_texture_roundtrip ⟨false, ⟨8, 4, 1, 1⟩⟩ 3 2 rfl (by decide) (by decide)
    (by decide) (by decide) (by decide) (by decide)

/-- The vector round trip is exact for unit vectors: converting to spherical
coordinates and back yields the very same components. -/
theorem vector3_roundtrip_exact (x y z : ℝ) (h : x * x + y * y + z * z = 1) :
    PSVDataHelper.sphericalCoordsToVector3 (PSVDataHelper.vector3ToSphericalCoords ⟨x, y, z⟩)
      = ⟨x, y, z⟩ := by
  simp only [PSVDataHelper.vector3ToSphericalCoords, PSVDataHelper.sphericalCoordsToVector3,
    PSVDataHelper.atan2, SPHERE_RADIUS]
  have hsq : Real.sqrt (x * x + y * y + z * z) = 1 := by rw [h]; exact Real.sqrt_one
  rw [hsq]
  have hy1 : -1 ≤ y := by nlinarith
  have hy2 : y ≤ 1 := by nlinarith
  have hdiv : y / 1 = y := div_one y
  rw [hdiv]
  set θ := Complex.arg ⟨z, x⟩ with hθdef
  have hsinlat : Real.sin (Real.pi / 2 - Real.arccos y) = y := by
    rw [Real.sin_pi_div_two_sub, Real.cos_arccos hy1 hy2]
  have hcoslat : Real.cos (Real.pi / 2 - Real.arccos y) = Real.sqrt (1 - y ^ 2) := by
    rw [Real.cos_pi_div_two_sub, Real.sin_arccos]
  have hsinlong : Real.sin (if θ < 0 then -θ else Real.pi * 2 - θ) = -Real.sin θ := by
    by_cases hθ : θ < 0
    · rw [if_pos hθ, Real.sin_neg]
    · rw [if_neg hθ, show Real.pi * 2 - θ = 2 * Real.pi - θ by ring, Real.sin_sub,
        Real.sin_two_pi, Real.cos_two_pi]
      ring
  have hcoslong : Real.cos (if θ < 0 then -θ else Real.pi * 2 - θ) = Real.cos θ := by
    by_cases hθ : θ < 0
    · rw [if_pos hθ, Real.cos_neg]
    · rw [if_neg hθ, show Real.pi * 2 - θ = 2 * Real.pi - θ by ring, Real.cos_sub,
        Real.sin_two_pi, Real.cos_two_pi]
      ring
  rw [hsinlat, hcoslat, hsinlong, hcoslong]
  have habs : Complex.abs ⟨z, x⟩ = Real.sqrt (1 - y ^ 2) := by
    rw [Complex.abs_apply, Complex.normSq_mk]
    congr 1
    nlinarith
  by_cases hzero : (⟨z, x⟩ : ℂ) = 0
  · have hz0 : z = 0 := congrArg Complex.re hzero
    have hx0 : x = 0 := congrArg Complex.im hzero
    have hy0 : Real.sqrt (1 - y ^ 2) = 0 := by
      rw [show (1 : ℝ) - y ^ 2 = 0 by nlinarith]
      exact Real.sqrt_zero
    refine Vec3.mk.injEq .. |>.mpr ⟨?_, ?_, ?_⟩
    · rw [hy0, hx0]; ring
    · ring
    · rw [hy0, hz0]; ring
  · have hrne : Complex.abs ⟨z, x⟩ ≠ 0 := by
      simpa using hzero
    have hsinθ : Real.sin θ = x / Complex.abs ⟨z, x⟩ := by
      rw [hθdef, Complex.sin_arg]
    have hcosθ : Real.cos θ = z / Complex.abs ⟨z, x⟩ := by
      rw [hθdef, Complex.cos_arg hzero]
    refine Vec3.mk.injEq .. |>.mpr ⟨?_, ?_, ?_⟩
    · rw [hsinθ, habs] at *
      rw [habs] at hrne
      field_simp
    · ring
    · rw [hcosθ, habs] at *
      rw [habs] at hrne
      field_simp

/-- Claim C3: for every unit vector v, `sphericalCoordsToVector3` applied to
`vector3ToSphericalCoords v` is within 1e-6 of v in every component (the
round trip is in fact exact in real arithmetic). -/
theorem claim_C3_vector_roundtrip (x y z : ℝ) (h : x * x + y * y + z * z = 1) :
    |(PSVDataHelper.sphericalCoordsToVector3
        (PSVDataHelper.vector3ToSphericalCoords ⟨x, y, z⟩)).x - x| ≤ 1e-6 ∧
    |(PSVDataHelper.sphericalCoordsToVector3
        (PSVDataHelper.vector3ToSphericalCoords ⟨x, y, z⟩)).y - y| ≤ 1e-6 ∧
    |(PSVDataHelper.sphericalCoordsToVector3
        (PSVDataHelper.vector3ToSphericalCoords ⟨x, y, z⟩)).z - z| ≤ 1e-6 := by
  rw [vector3_roundtrip_exact x y z h]
  norm_num

/-- Witness for C3 at the unit vector (1, 0, 0). -/
theorem claim_C3_vector_roundtrip_witness :
    |(PSVDataHelper.sphericalCoordsToVector3
        (PSVDataHelper.vector3ToSphericalCoords ⟨1, 0, 0⟩)).x - 1| ≤ 1e-6 ∧
    |(PSVDataHelper.sphericalCoordsToVector3
        (PSVDataHelper.vector3ToSphericalCoords ⟨1, 0, 0⟩)).y - 0| ≤ 1e-6 ∧
    |(PSVDataHelper.sphericalCoordsToVector3
        (PSVDataHelper.vector3ToSphericalCoords ⟨1, 0, 0⟩)).z - 0| ≤ 1e-6 :=
  claim_C3_vector_roundtrip 1 0 0 (by norm_num)

/-- Claim C9: for every integer zoom level L in [0, 100] and minFov distinct
from maxFov, `fovToZoomLevel (zoomLevelToFov L) = L`: the rounding plus the
sign-flip normalization `temp - 2 * (temp - 50)` exactly inverts the linear
zoom-to-fov map on integer levels. -/
theorem claim_C9_zoom_roundtrip (cfg : FovConfig) (L : ℤ)
    (hne : cfg.minFov ≠ cfg.maxFov) (h0 : 0 ≤ L) (h100 : L ≤ 100) :
    PSVDataHelper.fovToZoomLevel cfg (PSVDataHelper.zoomLevelToFov cfg (L : ℝ)) = L := by
  unfold PSVDataHelper.fovToZoomLevel PSVDataHelper.zoomLevelToFov
  have hd : cfg.maxFov - cfg.minFov ≠ 0 := sub_ne_zero.mpr (Ne.symm hne)
  have key : (cfg.maxFov + ((L : ℝ) / 100) * (cfg.minFov - cfg.maxFov) - cfg.minFov)
      / (cfg.maxFov - cfg.minFov) * 100 = ((100 - L : ℤ) : ℝ) := by
    field_simp
    ring
  rw [key, round_intCast]
  ring

/-- Witness for C9 at minFov 30, maxFov 90, level 42. -/
theorem claim_C9_zoom_roundtrip_witness :
    PSVDataHelper.fovToZoomLevel ⟨30, 90⟩ (PSVDataHelper.zoomLevelToFov ⟨30, 90⟩ ((42 : ℤ) : ℝ)) = 42 :=
  claim_C9_zoom_roundtrip ⟨30, 90⟩ 42 (by norm_num) (by norm_num) (by norm_num)

/-- Claim C2: with `longitudeRange = [-1, 1]` radians and a horizontal FOV
of 0.4 radians (72/π in the degrees the source stores), a candidate
longitude of 1.5 is out of the wrapped shrunk range [wrap(-0.8), 0.8] =
[2π - 0.8, 0.8], falls on the side closer to the upper bound, clamps to
exactly 0.8 and reports exactly the side `right`; the latitude passes
through untouched. -/
theorem claim_C2_longitude_range_clamp (vFovDeg lat : ℝ) :
    PSVDataHelper.applyRanges ⟨some (-1, 1), none⟩ (72 / Real.pi) vFovDeg ⟨1.5, lat⟩
      = (⟨0.8, lat⟩, [Side.right]) := by
  have hπ := Real.pi_pos
  have hπ0 : Real.pi ≠ 0 := ne_of_gt hπ
  have hπ3 := Real.pi_gt_three
  have h2π : (0:ℝ) < 2 * Real.pi := by positivity
  simp only [PSVDataHelper.applyRanges, PSVDataHelper.parseAngle, PSVDataHelper.degToRad,
    Bool.false_eq_true, if_false]
  have hoff : (72 / Real.pi * (Real.pi / 180) / 2 : ℝ) = 0.2 := by
    field_simp
    ring
  rw [hoff]
  have ha : ((-1 : ℝ), (1 : ℝ)).1 + 0.2 = -0.8 := by norm_num
  have hb : ((-1 : ℝ), (1 : ℝ)).2 - 0.2 = 0.8 := by norm_num
  rw [ha, hb]
  have hfl1 : ⌊(-0.8 : ℝ) / (2 * Real.pi)⌋ = -1 := by
    rw [Int.floor_eq_iff]
    constructor
    · rw [show (((-1 : ℤ)) : ℝ) = -1 by norm_num, le_div_iff₀ h2π]
      nlinarith
    · push_cast
      have : (-0.8 : ℝ) / (2 * Real.pi) < 0 := div_neg_of_neg_of_pos (by norm_num) h2π
      linarith
  have hfl2 : ⌊(0.8 : ℝ) / (2 * Real.pi)⌋ = 0 := by
    rw [Int.floor_eq_iff]
    constructor
    · push_cast
      positivity
    · rw [show (((0 : ℤ) : ℝ) + 1) = 1 by norm_num, div_lt_one h2π]
      nlinarith
  rw [hfl1, hfl2]
  have hr0 : (-0.8 : ℝ) - 2 * Real.pi * ((-1 : ℤ) : ℝ) = 2 * Real.pi - 0.8 := by
    push_cast
    ring
  have hr1 : (0.8 : ℝ) - 2 * Real.pi * ((0 : ℤ) : ℝ) = 0.8 := by
    push_cast
    ring
  rw [hr0, hr1]
  have hgt : (2 * Real.pi - 0.8 : ℝ) > 0.8 := by nlinarith
  rw [if_pos hgt]
  have hcond : ((1.5 : ℝ) > 0.8 ∧ (1.5 : ℝ) < 2 * Real.pi - 0.8) := by
    constructor
    · norm_num
    · nlinarith
  rw [if_pos hcond]
  have hmid : ¬((1.5 : ℝ) > ((2 * Real.pi - 0.8) / 2 + 0.8 / 2)) := by
    push_neg
    nlinarith
  rw [if_neg hmid]
  simp

/-- Claim C4: for every configured latitude range with lo ≤ hi and every
vertical FOV, the effective latitude bounds computed by `applyRanges` never
cross: `range[1]` is computed from the already shrunk-and-clamped
`range[0]`, so the lower bound is at most the upper bound. -/
theorem claim_C4_latitude_bounds_ordered (lo hi vFovDeg : ℝ) (h : lo ≤ hi) :
    (PSVDataHelper.latitudeShrunkRange (lo, hi) vFovDeg).1
      ≤ (PSVDataHelper.latitudeShrunkRange (lo, hi) vFovDeg).2 := by
  have hπ := Real.pi_pos
  simp only [PSVDataHelper.latitudeShrunkRange, PSVDataHelper.parseAngle, if_true]
  have h2 : max (-(Real.pi / 2)) (min (Real.pi / 2) (min (lo + PSVDataHelper.degToRad vFovDeg / 2) hi))
      ≤ Real.pi / 2 := max_le (by linarith) (min_le_left _ _)
  have h3 : max (-(Real.pi / 2)) (min (Real.pi / 2) (min (lo + PSVDataHelper.degToRad vFovDeg / 2) hi))
      ≤ min (Real.pi / 2)
        (max (hi - PSVDataHelper.degToRad vFovDeg / 2)
          (max (-(Real.pi / 2)) (min (Real.pi / 2) (min (lo + PSVDataHelper.degToRad vFovDeg / 2) hi)))) :=
    le_min h2 (le_max_right _ _)
  exact h3.trans (le_max_right _ _)

/-- Witness for C4 at latitudeRange [-1, 1] and a vertical FOV of 50
degrees. -/
theorem claim_C4_latitude_bounds_ordered_witness :
    (PSVDataHelper.latitudeShrunkRange (-1, 1) 50).1
      ≤ (PSVDataHelper.latitudeShrunkRange (-1, 1) 50).2 :=
  claim_C4_latitude_bounds_ordered (-1) 1 50 (by norm_num)

/-- Claim C8: while a panorama load is outstanding (`loadingPromise` not yet
settled) a second `setPanorama` fails synchronously with the concurrency
error and starts no new load (the `.error` result carries no new state);
once the outstanding load settles (`loadDone`), `setPanorama` is accepted
again. -/
theorem claim_C8_setPanorama_concurrency (s : ViewerState) (p₁ p₂ : String)
    (hidle : s.loadingPromise = none) :
    ∃ s₁, PhotoSphereViewer.setPanorama s p₁ = .ok s₁ ∧
      PhotoSphereViewer.setPanorama s₁ p₂ = .error PSVError.loadingInProgress ∧
      ∃ s₂, PhotoSphereViewer.setPanorama (PhotoSphereViewer.loadDone s₁) p₂ = .ok s₂ := by
  refine ⟨{ loadingPromise := some p₁, panorama := p₁ }, ?_, ?_, ?_⟩
  · simp [PhotoSphereViewer.setPanorama, hidle]
  · simp [PhotoSphereViewer.setPanorama]
  · exact ⟨{ loadingPromise := some p₂, panorama := p₂ }, by
      simp [PhotoSphereViewer.setPanorama, PhotoSphereViewer.loadDone]⟩

/-- Witness for C8: a settled viewer accepts a load of a.jpg, rejects an
immediate second call for b.jpg, and accepts it again after settlement. -/
theorem claim_C8_setPanorama_concurrency_witness :
    ∃ s₁, PhotoSphereViewer.setPanorama ⟨none, ("")⟩ ("a.jpg") = .ok s₁ ∧
      PhotoSphereViewer.setPanorama s₁ ("b.jpg") = .error PSVError.loadingInProgress ∧
      ∃ s₂, PhotoSphereViewer.setPanorama (PhotoSphereViewer.loadDone s₁) ("b.jpg") = .ok s₂ :=
  claim_C8_setPanorama_concurrency ⟨none, ("")⟩ ("a.jpg") ("b.jpg") rfl

/-- Every entry of a marking with no positive dot product is marked
invisible, including out-of-range `getD` reads (the default is marked
invisible too). -/
theorem markVisible_getD_false (direction : Vec3) (vs : List Vec3)
    (hinv : ∀ v ∈ vs, Vec3.dot v direction ≤ 0) (j : ℕ) :
    ((PSVHUD.markVisible direction vs).getD j ((⟨0, 0, 0⟩ : Vec3), false)).2 = false := by
  by_cases hj : j < (PSVHUD.markVisible direction vs).length
  · rw [List.getD_eq_getElem _ _ hj]
    simp only [PSVHUD.markVisible] at hj ⊢
    rw [List.getElem_map]
    simp only [decide_eq_false_iff_not, not_lt]
    refine hinv _ (List.getElem_mem ?_)
    simpa using hj
  · rw [List.getD_eq_default _ _ (le_of_not_lt hj)]

/-- The neighbour filter of the worklist construction is empty when every
`getD` read of the marking is invisible. -/
theorem neighbours_filter_nil (ps : List (Vec3 × Bool))
    (hget : ∀ j, (ps.getD j ((⟨0, 0, 0⟩ : Vec3), false)).2 = false) (i : ℕ) :
    (PSVHUD.neighbours ps i).filter (fun nb => nb.2) = [] := by
  rw [List.filter_eq_nil_iff]
  intro a ha
  simp only [PSVHUD.neighbours, List.mem_cons, List.mem_singleton] at ha
  rcases ha with ha | ha | ha
  · split at ha <;> (rw [ha, hget]; exact Bool.false_ne_true)
  · split at ha <;> (rw [ha, hget]; exact Bool.false_ne_true)
  · exact absurd ha (List.not_mem_nil a)

/-- A worklist built over an all-invisible marking is empty: no invisible
vertex has a visible neighbour. -/
theorem toBeComputed_nil_of_all_invisible (direction : Vec3) (vs : List Vec3)
    (hinv : ∀ v ∈ vs, Vec3.dot v direction ≤ 0) :
    PSVHUD.toBeComputed (PSVHUD.markVisible direction vs) = [] := by
  have hget := markVisible_getD_false direction vs hinv
  have hfil := neighbours_filter_nil (PSVHUD.markVisible direction vs) hget
  unfold PSVHUD.toBeComputed
  have key : ∀ (L : List ℕ) (acc : List PSVHUD.PolyPair),
      L.foldl (fun acc i =>
        let pos := (PSVHUD.markVisible direction vs).getD i (⟨0, 0, 0⟩, false)
        if pos.2 then acc
        else acc ++ ((PSVHUD.neighbours (PSVHUD.markVisible direction vs) i).filter
          (fun nb => nb.2)).map (fun nb => ⟨nb, pos, i⟩)) acc = acc := by
    intro L
    induction L with
    | nil => intro acc; rfl
    | cons a L ih =>
      intro acc
      rw [List.foldl_cons]
      simp only [hget a, hfil a, Bool.false_eq_true, if_false, List.map_nil, List.append_nil]
      exact ih acc
  exact key _ []

/-- Claim C7: a polygon marker all of whose 3D vertices have a non-positive
dot product with the camera direction synthesizes zero great-circle
intermediate points (the worklist is empty), yields an empty projected
position list, and is reported not frame-visible; the pass is a total
function, so it completes without throwing. -/
theorem claim_C7_all_invisible_polygon (proj : Vec3 → Point) (direction : Vec3)
    (m : Marker) (hpoly : isPolygonType m.type = true)
    (hinv : ∀ v ∈ m.props.positions3D, Vec3.dot v direction ≤ 0) :
    PSVHUD.toBeComputed (PSVHUD.markVisible direction m.props.positions3D) = [] ∧
    PSVHUD.getPolyPositions proj direction m.props.positions3D = [] ∧
    PSVHUD.renderPolyVisible proj direction m = false := by
  have htbc := toBeComputed_nil_of_all_invisible direction m.props.positions3D hinv
  have hpos : PSVHUD.getPolyPositions proj direction m.props.positions3D = [] := by
    unfold PSVHUD.getPolyPositions
    simp only [htbc, List.reverse_nil, List.foldl_nil]
    have hfil : (PSVHUD.markVisible direction m.props.positions3D).filter
        (fun pos => pos.2) = [] := by
      rw [List.filter_eq_nil_iff]
      intro a ha
      simp only [PSVHUD.markVisible, List.mem_map] at ha
      obtain ⟨v, hv, hveq⟩ := ha
      rw [← hveq]
      simp only [decide_eq_true_eq, not_lt]
      exact hinv v hv
    rw [hfil]
    rfl
  refine ⟨htbc, hpos, ?_⟩
  unfold PSVHUD.renderPolyVisible
  rw [hpos]
  simp [hpoly]

/-- Witness for C7: a triangle entirely behind the camera (direction +z, all
vertices at z = -1). -/
theorem claim_C7_all_invisible_polygon_witness :
    PSVHUD.toBeComputed (PSVHUD.markVisible ⟨0, 0, 1⟩
      [⟨0, 0, -1⟩, ⟨0, 1, -1⟩, ⟨1, 0, -1⟩]) = [] ∧
    PSVHUD.getPolyPositions (fun _ => ⟨0, 0⟩) ⟨0, 0, 1⟩
      [⟨0, 0, -1⟩, ⟨0, 1, -1⟩, ⟨1, 0, -1⟩] = [] ∧
    PSVHUD.renderPolyVisible (fun _ => ⟨0, 0⟩) ⟨0, 0, 1⟩
      { id := some ("p1")
        type := .polygonRad
        visible := true
        config := {}
        props := { initialProps with
          positions3D := [⟨0, 0, -1⟩, ⟨0, 1, -1⟩, ⟨1, 0, -1⟩] } } = false :=
  claim_C7_all_invisible_polygon (fun _ => ⟨0, 0⟩) ⟨0, 0, 1⟩
    { id := some ("p1")
      type := .polygonRad
      visible := true
      config := {}
      props := { initialProps with
        positions3D := [⟨0, 0, -1⟩, ⟨0, 1, -1⟩, ⟨1, 0, -1⟩] } }
    rfl
    (by
      intro v hv
      simp only [List.mem_cons, List.not_mem_nil, or_false] at hv
      rcases hv with rfl | rfl | rfl <;> norm_num [Vec3.dot])

/-- `__updateNormal` never touches the user visibility flag. -/
theorem updateNormal_visible (st : PanoState) (m : Marker) :
    ((PSVMarker.updateNormal st m).1).visible = m.visible := by
  unfold PSVMarker.updateNormal
  dsimp only
  split_ifs <;> split <;> rfl

/-- `__updateSvg` never touches the user visibility flag. -/
theorem updateSvg_visible (st : PanoState) (m : Marker) :
    ((PSVMarker.updateSvg st m).1).visible = m.visible := by
  unfold PSVMarker.updateSvg
  dsimp only
  split <;> rfl

/-- `__updatePoly` never touches the user visibility flag. -/
theorem updatePoly_visible (st : PanoState) (m : Marker) :
    ((PSVMarker.updatePoly st m).1).visible = m.visible := by
  unfold PSVMarker.updatePoly
  dsimp only
  split <;> rfl

/-- Claim C6: updating a marker with properties that contain a content-kind
field different from the marker's current type throws (the second component
carries the error) and leaves the marker — configuration, type and derived
properties — exactly as it was: the type check precedes the merge. -/
theorem claim_C6_update_type_change_rejected (st : PanoState) (m : Marker)
    (p : MarkerConfig) (t : MarkerType)
    (ht : t ∈ contentFields p) (hne : t ≠ m.type) :
    (PSVMarker.update st m p).1 = m ∧ (PSVMarker.update st m p).2.isSome = true := by
  unfold PSVMarker.update
  cases hcf : contentFields p with
  | nil =>
    rw [hcf] at ht
    exact absurd ht (List.not_mem_nil t)
  | cons a tail =>
    cases tail with
    | nil =>
      have hta : t = a := by
        rw [hcf] at ht
        simpa using ht
      subst hta
      have hg : PSVMarker.getType p true = .ok (some t) := by
        unfold PSVMarker.getType
        rw [hcf]
      have hcond : ((some t).isSome && (some t != some m.type)) = true := by
        simp [hne]
      simp only [hg, hcond, if_true]
      simp
    | cons b tail2 =>
      have hg : PSVMarker.getType p true = .error .multipleContent := by
        unfold PSVMarker.getType
        rw [hcf]
      simp only [hg]
      simp

/-- Witness for C6: an image marker updated with an html content field. -/
theorem claim_C6_update_type_change_rejected_witness :
    (PSVMarker.update ⟨false, ⟨8, 4, 0, 0⟩⟩
        { id := some ("m1")
          type := .image
          visible := true
          config := { id := some ("m1"), image := some ("img.png") }
          props := initialProps }
        { html := some ("<b>") }).1 =
      { id := some ("m1")
        type := .image
        visible := true
        config := { id := some ("m1"), image := some ("img.png") }
        props := initialProps } ∧
    (PSVMarker.update ⟨false, ⟨8, 4, 0, 0⟩⟩
        { id := some ("m1")
          type := .image
          visible := true
          config := { id := some ("m1"), image := some ("img.png") }
          props := initialProps }
        { html := some ("<b>") }).2.isSome = true :=
  claim_C6_update_type_change_rejected ⟨false, ⟨8, 4, 0, 0⟩⟩
    { id := some ("m1")
      type := .image
      visible := true
      config := { id := some ("m1"), image := some ("img.png") }
      props := initialProps }
    { html := some ("<b>") } .html (by decide) (by decide)

/-- Claim C10: a successful marker update whose properties do not explicitly
set `visible` to false leaves the marker visible — `update` recomputes the
flag as `properties.visible !== false`, so an update omitting the field
re-shows a marker hidden through `hideMarker`. -/
theorem claim_C10_update_resets_visible (st : PanoState) (m : Marker)
    (p : MarkerConfig) (hok : (PSVMarker.update st m p).2 = none)
    (hv : p.visible ≠ some false) :
    ((PSVMarker.update st m p).1).visible = true := by
  unfold PSVMarker.update at hok ⊢
  cases hg : PSVMarker.getType p true with
  | error e =>
    rw [hg] at hok
    simp at hok
  | ok newType =>
    rw [hg] at hok
    dsimp only at hok ⊢
    split at hok
    · simp at hok
    · next hcnot =>
      rw [if_neg hcnot]
      split at hok
      · next hn =>
        rw [if_pos hn, updateNormal_visible]
        dsimp only
        rw [bne_iff_ne]
        exact hv
      · next hn =>
        rw [if_neg hn]
        split at hok
        · next hp =>
          rw [if_pos hp, updatePoly_visible]
          dsimp only
          rw [bne_iff_ne]
          exact hv
        · next hp =>
          rw [if_neg hp, updateSvg_visible]
          dsimp only
          rw [bne_iff_ne]
          exact hv

/-- Witness for C10: an html marker hidden through `hideMarker`
(`visible := false`) updated with an empty properties object becomes
visible again. -/
theorem claim_C10_update_resets_visible_witness :
    ((PSVMarker.update ⟨false, ⟨8, 4, 0, 0⟩⟩
        { id := some ("m1")
          type := .html
          visible := false
          config := { id := some ("m1"), html := some ("x"),
                      longitude := some 0, latitude := some 0 }
          props := initialProps }
        {}).1).visible = true :=
  claim_C10_update_resets_visible ⟨false, ⟨8, 4, 0, 0⟩⟩
    { id := some ("m1")
      type := .html
      visible := false
      config := { id := some ("m1"), html := some ("x"),
                  longitude := some 0, latitude := some 0 }
      props := initialProps }
    {} (by rfl) (by decide)

/-- Merging into the target only matters where the source is absent. -/
theorem ovr_none {α : Type} (o : Option α) : ovr o none = o := by
  cases o <;> rfl

/-- Merging a configuration into the fresh empty configuration the
constructor starts from yields that configuration. -/
theorem deepmerge_empty (c : MarkerConfig) : deepmerge {} c = c := by
  simp only [deepmerge, ovr_none]

/-- `cleanPosition` fails when the configuration carries neither both pixel
coordinates nor both spherical coordinates. -/
theorem cleanPosition_error_of_missing (st : PanoState) (c : MarkerConfig)
    (hx : c.x = none ∨ c.y = none) (hl : c.longitude = none ∨ c.latitude = none) :
    ∃ e, PSVDataHelper.cleanPosition st c = .error e := by
  have hang : ∃ e, (do
      let long ← PSVDataHelper.parseAngleOpt c.longitude false
      let lat ← PSVDataHelper.parseAngleOpt c.latitude true
      pure (⟨long, lat⟩ : Position) : Except PSVError Position) = .error e := by
    rcases hl with h | h
    · rw [h]
      exact ⟨.unknownAngle, rfl⟩
    · cases hcl : c.longitude with
      | none => exact ⟨.unknownAngle, rfl⟩
      | some v =>
        rw [h]
        exact ⟨.unknownAngle, rfl⟩
  unfold PSVDataHelper.cleanPosition
  cases hcx : c.x with
  | none => exact hang
  | some px =>
    cases hcy : c.y with
    | none => exact hang
    | some py =>
      rcases hx with h | h
      · rw [hcx] at h
        exact absurd h (by simp)
      · rw [hcy] at h
        exact absurd h (by simp)

/-- `__updateNormal` propagates a `cleanPosition` failure as its thrown
error. -/
theorem updateNormal_error (st : PanoState) (m : Marker) (e : PSVError)
    (he : PSVDataHelper.cleanPosition st m.config = .error e) :
    (PSVMarker.updateNormal st m).2 = some e := by
  unfold PSVMarker.updateNormal
  dsimp only
  split_ifs <;> (dsimp only; rw [he])

/-- `__updateSvg` propagates a `cleanPosition` failure as its thrown
error. -/
theorem updateSvg_error (st : PanoState) (m : Marker) (e : PSVError)
    (he : PSVDataHelper.cleanPosition st m.config = .error e) :
    (PSVMarker.updateSvg st m).2 = some e := by
  unfold PSVMarker.updateSvg
  dsimp only
  rw [he]

/-- `update` on a non-poly marker whose merged configuration has no usable
position throws the `cleanPosition` error. -/
theorem update_snd_some (st : PanoState) (m : Marker) (c : MarkerConfig)
    (t : MarkerType) (hg2 : PSVMarker.getType c true = .ok (some t))
    (hmt : m.type = t) (hpoly : isPolyType t = false) (e : PSVError)
    (hclean : PSVDataHelper.cleanPosition st (deepmerge m.config c) = .error e) :
    (PSVMarker.update st m c).2 = some e := by
  unfold PSVMarker.update
  rw [hg2]
  dsimp only
  rw [if_neg (by simp [hmt])]
  cases hnt : isNormalType m.type with
  | true =>
    rw [if_pos rfl]
    exact updateNormal_error st _ e hclean
  | false =>
    rw [if_neg (by exact Bool.false_ne_true)]
    rw [if_neg (by rw [hmt, hpoly]; exact Bool.false_ne_true)]
    exact updateSvg_error st _ e hclean

/-- Claim C5: a marker configuration with exactly one point or shape content
kind (image, html, square, rect, circle, ellipse, path) and neither both
pixel coordinates nor both spherical coordinates fails to create with a
configuration error: image and html markers are rejected by the explicit
position check, shape markers by the angle parsing in `cleanPosition` during
the constructor's `update`. -/
theorem claim_C5_pointshape_needs_position (st : PanoState) (c : MarkerConfig)
    (t : MarkerType) (hcf : contentFields c = [t]) (hshape : isPolyType t = false)
    (hx : c.x = none ∨ c.y = none) (hl : c.longitude = none ∨ c.latitude = none) :
    ∃ e, PSVMarker.create st c = .error e := by
  unfold PSVMarker.create
  cases hid : truthyStr c.id with
  | false => exact ⟨.missingId, rfl⟩
  | true =>
    cases him : truthyStr c.image with
    | true =>
      cases hwh : (!c.width.isSome || !c.height.isSome) with
      | true => exact ⟨.missingSize, rfl⟩
      | false =>
        refine ⟨.missingPosition, ?_⟩
        rcases hx with h | h <;> rcases hl with h2 | h2 <;> simp [h, h2]
    | false =>
      cases hh : truthyStr c.html with
      | true =>
        refine ⟨.missingPosition, ?_⟩
        rcases hx with h | h <;> rcases hl with h2 | h2 <;> simp [h, h2]
      | false =>
        have hg : PSVMarker.getType c false = .ok (some t) := by
          unfold PSVMarker.getType
          rw [hcf]
        rw [hg]
        dsimp only
        have hg2 : PSVMarker.getType c true = .ok (some t) := by
          unfold PSVMarker.getType
          rw [hcf]
        obtain ⟨e, he⟩ := cleanPosition_error_of_missing st c hx hl
        have he2 : PSVDataHelper.cleanPosition st
            (deepmerge ({} : MarkerConfig) c) = .error e := by
          rw [deepmerge_empty]
          exact he
        have hsnd : (PSVMarker.update st
            { id := c.id, type := t, visible := true, config := {},
              props := initialProps } c).2 = some e :=
          update_snd_some st _ c t hg2 rfl hshape e he2
        have hu : PSVMarker.update st
            { id := c.id, type := t, visible := true, config := {},
              props := initialProps } c =
            ((PSVMarker.update st
              { id := c.id, type := t, visible := true, config := {},
                props := initialProps } c).1, some e) := by
          rw [Prod.ext_iff]
          exact ⟨rfl, hsnd⟩
        rw [hu]
        exact ⟨e, rfl⟩

/-- Witness for C5: a square marker with an id and a size but no position at
all. -/
theorem claim_C5_pointshape_needs_position_witness :
    ∃ e, PSVMarker.create ⟨false, ⟨8, 4, 0, 0⟩⟩
      { id := some ("m1"), square := some 10 } = .error e :=
  claim_C5_pointshape_needs_position ⟨false, ⟨8, 4, 0, 0⟩⟩
    { id := some ("m1"), square := some 10 } .square (by decide) (by decide)
    (Or.inl rfl) (Or.inl rfl)
